import Mathlib

/-!
Verification of the KFS metaserver core (request dispatcher, allocate
state machine, checkpoint subsystem, operation log and wire codec)
against a shallow embedding of `src/cc/meta/request.cc`,
`src/cc/meta/checkpoint.cc` and `src/cc/common/kfstypes.h`.
-/

namespace KFS

/-- errno values from `<cerrno>` on Linux, as used by the metaserver. -/
def ENOENT : Int := 2

/-- errno: I/O error, returned by the log methods on stream failure. -/
def EIOerr : Int := 5

/-- errno: entry already exists (`allocateChunkId` on a reused offset). -/
def EEXIST : Int := 17

/-- errno: not a directory. -/
def ENOTDIR : Int := 20

/-- errno: no space (allocation placement failed). -/
def ENOSPC : Int := 28

/-- errno: no handler registered for the opcode. -/
def ENOSYS : Int := 38

/-- KFS-specific error from `kfstypes.h`: allocation failed. -/
def EALLOCFAILED : Int := 1005

/-- Special fid of the root directory, from `kfstypes.h`. -/
def ROOTFID : Int := 2

/-- Default degree of replication, from `kfstypes.h`. -/
def NUM_REPLICAS_PER_FILE : Int := 3

/-!
## Checkpoint state machine (`checkpoint.cc`)

The shared scalar state guarded by `writer.lock()` in `Checkpoint`:
`running`, `mutations`, `nostart`, `startblocked`, `cpcount`.
The lock/wakeup calls serialise the methods, so each method is a pure
state transformer on this record.
-/

structure CPState where
  running : Bool
  mutations : Nat
  nostart : Bool
  startblocked : Bool
  cpcount : Nat
deriving DecidableEq, Repr

/-- `Checkpoint::isCPNeeded`: a CP is likely iff none is running and
there are outstanding mutations. -/
def isCPNeeded (s : CPState) : Bool :=
  !s.running && s.mutations != 0

/-- `Checkpoint::start_CP`: start a checkpoint if none is running and
mutations are outstanding; defer via `startblocked` when `nostart`. -/
def start_CP (s : CPState) : CPState :=
  if !s.running && s.mutations != 0 then
    if s.nostart then
      { s with startblocked := true }
    else
      { s with running := true, mutations := 0 }
  else
    s

/-- `Checkpoint::lock_running`: declare the critical section and report
whether a checkpoint is currently running. -/
def lock_running (s : CPState) : CPState × Bool :=
  ({ s with nostart := true }, s.running)

/-- `Checkpoint::unlock_running`: leave the critical section; if a start
was deferred, trigger it now. -/
def unlock_running (s : CPState) : CPState :=
  let s1 : CPState := { s with nostart := false, startblocked := false }
  if s.startblocked then start_CP s1 else s1

/-!
## Request dispatcher (`process_request` in `request.cc`)

`process_request` dequeues one request, looks up the handler registered
for its opcode (the `handler` map filled by `setup_handlers`), runs it
(or sets `-ENOSYS` when absent), and, when the request is not left
suspended, bumps the per-opcode counter (`UpdateCounter`, a no-op for
opcodes without a registered counter) and hands the request to
`oplog.add_pending`.
-/

/-- The metaserver opcodes (the `MetaOp` values used in `request.cc`). -/
inductive MetaOp where
  | LOOKUP | LOOKUP_PATH | CREATE | MKDIR | REMOVE | RMDIR | READDIR
  | GETALLOC | GETLAYOUT | ALLOCATE | TRUNCATE | RENAME | CHECKPOINT
  | CHUNK_REPLICATE | CHUNK_REPLICATION_CHECK | HELLO | BYE
  | LEASE_ACQUIRE | LEASE_RENEW | LEASE_CLEANUP | CHANGE_CHUNKVERSIONINC
  | PING | STATS
deriving DecidableEq, Repr

/-- The dispatcher-visible part of a `MetaRequest`: its opcode, status
and suspension flag.  Handlers mutate status/suspended but never the
opcode, so a handler is a function from the request to those fields. -/
structure DReq where
  op : MetaOp
  status : Int
  suspended : Bool
deriving DecidableEq, Repr

/-- `UpdateCounter`: bump the counter for `op` if one is registered
(`gCounters.find`), otherwise do nothing. -/
def updateCounter (counters : MetaOp → Option Nat) (op : MetaOp) :
    MetaOp → Option Nat :=
  match counters op with
  | none => counters
  | some c => fun o => if o = op then some (c + 1) else counters o

/-- `process_request`: run the registered handler (or set `-ENOSYS`);
when the request is not suspended afterwards, update its counter and
append it to the logger's pending list (`oplog.add_pending`).  Returns
the new counters, the new pending list and the retired request. -/
def process_request (handlers : MetaOp → Option (DReq → Int × Bool))
    (counters : MetaOp → Option Nat) (pending : List DReq) (r : DReq) :
    (MetaOp → Option Nat) × List DReq × DReq :=
  let r1 : DReq :=
    match handlers r.op with
    | none => { r with status := -ENOSYS }
    | some h => { r with status := (h r).1, suspended := (h r).2 }
  if r1.suspended = false then
    (updateCounter counters r1.op, pending ++ [r1], r1)
  else
    (counters, pending, r1)

/-!
## Checkpoint writing (`write_leaves`, `write_zombies`, `do_CP`)

Each tree entity answers `checkpoint(file)` by emitting its record and
returning a status; the embedding keeps both per entity.
-/

/-- A zombie entity as the checkpointer sees it: the record its
`checkpoint(file)` call emits and the status that call returns. -/
structure MetaEnt where
  out : String
  cpStatus : Int
deriving DecidableEq, Repr

/-- A leaf entity visited by `write_leaves`: additionally carries the
`skip()` flag that makes the iterator pass it over. -/
structure LeafEnt where
  skip : Bool
  out : String
  cpStatus : Int
deriving DecidableEq, Repr

/-- `Checkpoint::write_leaves`: visit the leaves in order, clearing and
passing over skipped entries, emitting the rest; stop at the first
entity whose `checkpoint` call fails. -/
def write_leaves : List LeafEnt → Int × List String
  | [] => (0, [])
  | m :: rest =>
    if m.skip then write_leaves rest
    else
      if m.cpStatus = 0 then
        let r := write_leaves rest
        (r.1, m.out :: r.2)
      else
        (m.cpStatus, [m.out])

/-- `Checkpoint::write_zombies`: dequeue every zombie, emit its record,
destroy it; keep the first nonzero status but keep draining.  Returns
the final status, the emitted records in order, and the queue left
behind. -/
def write_zombies : List MetaEnt → Int → Int × List String × List MetaEnt
  | [], status => (status, [], [])
  | m :: rest, status =>
    let status1 := if status = 0 then m.cpStatus else status
    let r := write_zombies rest status1
    (r.1, m.out :: r.2.1, r.2.2)

/-!
## The allocate state machine (`handle_allocate` in `request.cc`)

`handle_allocate` is the canonical suspended-request handler.  Its
calls into the metadata tree (`allocateChunkId`, `getChunkVersion`,
`assignChunkId`) and the layout manager (`GetChunkWriteLease`,
`AllocateChunk`) land outside these sources, so their results are
inputs of the embedding; the handler's own control flow is translated
from `request.cc` line by line.
-/

/-- The fields of a `MetaAllocate` request that `handle_allocate`
reads or writes.  `servers` holds the replica chunkservers attached to
the request (by an abstract server identity); `reqLink` is the request
this one is tied to (`alloc->req`), recorded by its `opSeqno`. -/
structure MetaAllocateReq where
  opSeqno : Int
  fid : Int
  offset : Int
  chunkId : Int
  chunkVersion : Int
  numReplicas : Int
  layoutDone : Bool
  status : Int
  suspended : Bool
  servers : List Nat
  reqLink : Option Int
deriving DecidableEq, Repr

/-- Modelled from the spec: the results of the external calls
`handle_allocate` makes into the metadata tree (`kfstree.cc`) and the
layout manager (`LayoutManager.cc`), neither of which is among the
sources.  `allocateChunkId` returns a fresh or existing
`(chunk_id, version, num_replicas)` tuple with its status;
`GetChunkWriteLease` returns a status and `is_new`, writing the bumped
chunk version into the request when the lease is new;
`AllocateChunk` and `assignChunkId` return statuses; `getChunkVersion`
writes the chunk's version as recorded in the tree. -/
structure AllocCalls where
  allocStatus : Int
  allocChunkId : Int
  allocChunkVersion : Int
  allocNumReplicas : Int
  leaseStatus : Int
  isNewLease : Bool
  leaseChunkVersion : Int
  allocateChunkStatus : Int
  getChunkVersion : Int
  assignStatus : Int
deriving DecidableEq, Repr

/-- The externally visible actions `handle_allocate` can issue: a
`CHUNK_VERS_CHANGE` notification to one replica server
(`ChunkServerPtr::NotifyChunkVersChange` via `ChunkVersionChanger`),
erasure of the chunk-to-server mapping
(`gLayoutManager.RemoveChunkToServerMapping`), and submission of a
`MetaChangeChunkVersionInc` request (`ChangeIncarnationNumber`). -/
inductive AllocAction where
  | notifyChunkVersChange (fid chunkId chunkVersion : Int) (srv : Nat)
  | removeChunkToServerMapping (chunkId : Int)
  | submitChangeChunkVersionInc (cvi : Int)
deriving DecidableEq, Repr

/-- `ChangeIncarnationNumber`: bump the global `chunkVersionInc` by one
and submit a `MetaChangeChunkVersionInc` carrying the new value. -/
def ChangeIncarnationNumber (cvi : Int) : Int × AllocAction :=
  (cvi + 1, AllocAction.submitChangeChunkVersionInc (cvi + 1))

/-- `handle_allocate`: first invocation (`layoutDone = false`) runs
`allocateChunkId` and either bails on error, completes or suspends on
the lease path after `-EEXIST`, or places the chunk and suspends;
resumption (`layoutDone = true`) either converts a chunkserver failure
into `-EALLOCFAILED` with version-change cleanup and an incarnation
bump, or records the chunk in the tree via `assignChunkId`.  Returns
the updated request, the updated `chunkVersionInc`, and the actions
issued. -/
def handle_allocate (ext : AllocCalls) (cvi : Int) (r : MetaAllocateReq) :
    MetaAllocateReq × Int × List AllocAction :=
  if r.layoutDone = false then
    let r2 : MetaAllocateReq :=
      { r with
        status := ext.allocStatus,
        chunkId := ext.allocChunkId,
        chunkVersion := ext.allocChunkVersion,
        numReplicas := ext.allocNumReplicas }
    if r2.status ≠ 0 ∧ r2.status ≠ -EEXIST then
      (r2, cvi, [])
    else if r2.status = -EEXIST then
      let r3 : MetaAllocateReq :=
        { r2 with
          status := ext.leaseStatus,
          chunkVersion :=
            if ext.isNewLease then ext.leaseChunkVersion else r2.chunkVersion }
      if r3.status ≠ 0 then (r3, cvi, [])
      else if ext.isNewLease = false then (r3, cvi, [])
      else ({ r3 with suspended := true }, cvi, [])
    else
      if ext.allocateChunkStatus ≠ 0 then
        ({ r2 with status := -ENOSPC }, cvi, [])
      else
        ({ r2 with suspended := true }, cvi, [])
  else
    if r.status ≠ 0 then
      let r1 : MetaAllocateReq :=
        { r with status := -EALLOCFAILED, chunkVersion := ext.getChunkVersion }
      let acts : List AllocAction :=
        if r1.chunkVersion > 0 then
          r.servers.map (fun s =>
            AllocAction.notifyChunkVersChange r.fid r.chunkId r1.chunkVersion s)
        else
          [AllocAction.removeChunkToServerMapping r.chunkId]
      let c := ChangeIncarnationNumber cvi
      ({ r1 with suspended := true }, c.1, acts ++ [c.2])
    else
      ({ r with suspended := false, status := ext.assignStatus }, cvi, [])

/-- Modelled from the spec: the `MetaAllocate(seq, fid, offset)`
constructor (declared in `request.h`, not among the sources).  A fresh
allocate request starts at state S0 of the handler state machine:
layout not yet done, status 0, not suspended, no servers attached. -/
def newMetaAllocate (seq fid offset : Int) (parent : Option Int) :
    MetaAllocateReq :=
  { opSeqno := seq, fid := fid, offset := offset, chunkId := 0,
    chunkVersion := 0, numReplicas := 0, layoutDone := false, status := 0,
    suspended := false, servers := [], reqLink := parent }

/-- The fields of a `MetaTruncate` request that `handle_truncate`
reads or writes. -/
structure MetaTruncateReq where
  opSeqno : Int
  fid : Int
  offset : Int
  status : Int
  suspended : Bool
deriving DecidableEq, Repr

/-- `handle_truncate`: run `metatree.truncate` (its status and the
extension offset it reports are inputs, the tree being outside these
sources); on a positive status synthesise a `MetaAllocate` at the
extension offset tied to this request, suspend, and invoke
`handle_allocate` on it; otherwise complete with the tree's status. -/
def handle_truncate (truncStatus allocOffset : Int) (ext : AllocCalls)
    (cvi : Int) (r : MetaTruncateReq) :
    MetaTruncateReq × Option (MetaAllocateReq × Int × List AllocAction) :=
  let r1 : MetaTruncateReq := { r with status := truncStatus }
  if r1.status > 0 then
    let alloc := newMetaAllocate r.opSeqno r.fid allocOffset (some r.opSeqno)
    ({ r1 with suspended := true }, some (handle_allocate ext cvi alloc))
  else
    (r1, none)

/-!
## Wire-protocol parse handlers (`request.cc`)

`ParseCommand` fills a `Properties` table from the header lines and
dispatches to a per-command parse handler.  `Properties::getValue`
returns the stored value of a key or the supplied default, so each
handler's view of the table is one `Option` per header it reads.
-/

/-- The headers read by `parseHandlerLookup` (also the shape read by
`parseHandlerCreate` etc.): `Cseq`, `Parent File-handle`, `Filename`. -/
structure LookupProps where
  cseq : Option Int
  parentFileHandle : Option Int
  filename : Option String
deriving DecidableEq, Repr

/-- The result of a successful `LOOKUP` parse (`new MetaLookup`). -/
structure MetaLookupArgs where
  seq : Int
  dir : Int
  name : String
deriving DecidableEq, Repr

/-- `parseHandlerLookup`: `Cseq` defaults to -1; fail when
`Parent File-handle` is absent or negative or `Filename` is absent. -/
def parseHandlerLookup (p : LookupProps) : Option MetaLookupArgs :=
  let seq := p.cseq.getD (-1)
  let dir := p.parentFileHandle.getD (-1)
  if dir < 0 then none
  else
    match p.filename with
    | none => none
    | some name => some ⟨seq, dir, name⟩

/-- The headers read by `parseHandlerCreate`: additionally
`Num-replicas`. -/
structure CreateProps where
  cseq : Option Int
  parentFileHandle : Option Int
  filename : Option String
  numReplicas : Option Int
deriving DecidableEq, Repr

/-- The result of a successful `CREATE` parse (`new MetaCreate`). -/
structure MetaCreateArgs where
  seq : Int
  dir : Int
  name : String
  numReplicas : Int
deriving DecidableEq, Repr

/-- The narrowing conversion applied when the `int` result of
`prop.getValue("Num-replicas", 1)` is assigned to the `int16_t` local
`numReplicas`: two's-complement wrap modulo 2^16 into
[-32768, 32767]. -/
def toInt16 (n : Int) : Int :=
  let m := n % 65536
  if m ≥ 32768 then m - 65536 else m

/-- `parseHandlerCreate`: `Cseq` defaults to -1, `Num-replicas` to 1
and is narrowed to `int16_t`; fail on a missing or negative
`Parent File-handle`, a missing `Filename`, or a narrowed
`Num-replicas` equal to 0; cap replication at
`NUM_REPLICAS_PER_FILE`. -/
def parseHandlerCreate (p : CreateProps) : Option MetaCreateArgs :=
  let seq := p.cseq.getD (-1)
  let dir := p.parentFileHandle.getD (-1)
  if dir < 0 then none
  else
    match p.filename with
    | none => none
    | some name =>
      let nr := toInt16 (p.numReplicas.getD 1)
      if nr = 0 then none
      else
        let nr := if nr > NUM_REPLICAS_PER_FILE then NUM_REPLICAS_PER_FILE else nr
        some ⟨seq, dir, name, nr⟩

/-- The headers read by `parseHandlerGetalloc` and
`parseHandlerAllocate`: `Cseq`, `File-handle`, `Chunk-offset`. -/
structure FidOffsetProps where
  cseq : Option Int
  fileHandle : Option Int
  chunkOffset : Option Int
deriving DecidableEq, Repr

/-- The result of a successful `GETALLOC` parse (`new MetaGetalloc`). -/
structure MetaGetallocArgs where
  seq : Int
  fid : Int
  offset : Int
deriving DecidableEq, Repr

/-- `parseHandlerGetalloc`: `Cseq` defaults to -1; fail when
`File-handle` or `Chunk-offset` is absent or negative. -/
def parseHandlerGetalloc (p : FidOffsetProps) : Option MetaGetallocArgs :=
  let seq := p.cseq.getD (-1)
  let fid := p.fileHandle.getD (-1)
  let offset := p.chunkOffset.getD (-1)
  if fid < 0 ∨ offset < 0 then none
  else some ⟨seq, fid, offset⟩

/-- `parseHandlerAllocate`: same required headers as `GETALLOC`; a
successful parse builds a fresh `MetaAllocate`. -/
def parseHandlerAllocate (p : FidOffsetProps) : Option MetaAllocateReq :=
  let seq := p.cseq.getD (-1)
  let fid := p.fileHandle.getD (-1)
  let offset := p.chunkOffset.getD (-1)
  if fid < 0 ∨ offset < 0 then none
  else some (newMetaAllocate seq fid offset none)

/-- The headers read by `parseHandlerLeaseAcquire`: `Cseq`,
`Chunk-handle`. -/
structure LeaseAcquireProps where
  cseq : Option Int
  chunkHandle : Option Int
deriving DecidableEq, Repr

/-- The result of a `LEASE_ACQUIRE` parse (`new MetaLeaseAcquire`). -/
structure MetaLeaseAcquireArgs where
  seq : Int
  chunkId : Int
deriving DecidableEq, Repr

/-- `parseHandlerLeaseAcquire`: both headers default to -1 and nothing
is checked, so the parse always succeeds. -/
def parseHandlerLeaseAcquire (p : LeaseAcquireProps) :
    Option MetaLeaseAcquireArgs :=
  some ⟨p.cseq.getD (-1), p.chunkHandle.getD (-1)⟩

/-!
## Readdir response (`MetaReaddir::response` in `request.cc`)
-/

/-- A directory entry as the response sees it: its name. -/
structure MetaDentry where
  name : String
deriving DecidableEq, Repr

/-- The name-gathering loop of `MetaReaddir::response`: walk the
dentries in order, skipping the root's self-entry `"/"` when listing
the root directory, appending each remaining name plus a newline and
counting it. -/
def readdirGather (dir : Int) : List MetaDentry → Nat × String
  | [] => (0, "")
  | d :: rest =>
    if dir = ROOTFID ∧ d.name = "/" then readdirGather dir rest
    else
      let r := readdirGather dir rest
      (r.1 + 1, d.name ++ "\n" ++ r.2)

/-- The entry-name concatenation a directory listing shows. -/
def concatNames (l : List MetaDentry) : String :=
  l.foldr (fun d acc => d.name ++ "\n" ++ acc) ""

/-- The non-error tail of a readdir response: entry count, content
length, blank line, then the names. -/
def readdirBody (numEntries : Nat) (res : String) : String :=
  "Num-Entries: " ++ toString numEntries ++ "\r\n" ++
  "Content-length: " ++ toString res.length ++ "\r\n\r\n" ++ res

/-- `MetaReaddir::response`: the `OK`/`Cseq`/`Status` preamble; on a
negative status only a blank line follows; otherwise the gathered
entries. -/
def MetaReaddir.response (opSeqno status dir : Int)
    (v : List MetaDentry) : String :=
  let base := "OK\r\n" ++ "Cseq: " ++ toString opSeqno ++ "\r\n" ++
    "Status: " ++ toString status ++ "\r\n"
  if status < 0 then base ++ "\r\n"
  else
    base ++ readdirBody (readdirGather dir v).1 (readdirGather dir v).2

/-- The scalar inputs of a checkpoint file's header. -/
structure CPFileInputs where
  highest : Int
  versionStr : String
  fidSeed : Int
  chunkIdSeed : Int
  chunkVersionInc : Int
  timeStr : String
  logName : String
deriving DecidableEq, Repr

/-- The header records `do_CP` writes before any leaf. -/
def cpHeader (i : CPFileInputs) : List String :=
  ["checkpoint/" ++ toString i.highest,
   "version/" ++ i.versionStr,
   "fid/" ++ toString i.fidSeed,
   "chunkId/" ++ toString i.chunkIdSeed,
   "chunkVersionInc/" ++ toString i.chunkVersionInc,
   "time/" ++ i.timeStr,
   "log/" ++ i.logName,
   ""]

/-- The writing phase of `Checkpoint::do_CP`: on open failure return
`-EIO`; otherwise write the header, then the leaves, and only when
`write_leaves` succeeded drain the zombies.  Returns the status, the
file contents in write order, and the zombie queue left behind. -/
def do_CP_write (openFail : Bool) (i : CPFileInputs)
    (leaves : List LeafEnt) (zq : List MetaEnt) :
    Int × List String × List MetaEnt :=
  if openFail then (-EIOerr, [], zq)
  else
    let l := write_leaves leaves
    if l.1 = 0 then
      let z := write_zombies zq 0
      (z.1, cpHeader i ++ l.2 ++ z.2.1, z.2.2)
    else
      (l.1, cpHeader i ++ l.2, zq)

/-!
## Operation-log records (the `log` methods in `request.cc`)

Each mutating request type writes one slash-delimited, opcode-prefixed
line to the log stream and returns `-EIO` exactly when the stream has
failed; every pure query type writes nothing and returns 0.  The
stream's decimal rendering of the integer fields (`operator<<` on
`long long`) is embedded as `intDec`.
-/

/-- Decimal digits of `n`, most significant first, onto `acc`. -/
def natDecAux (n : Nat) (acc : List Char) : List Char :=
  let d := Char.ofNat (48 + n % 10)
  if n < 10 then d :: acc
  else natDecAux (n / 10) (d :: acc)
termination_by n
decreasing_by
  exact Nat.div_lt_self (by omega) (by norm_num)

/-- Decimal rendering of a natural number. -/
def natDec (n : Nat) : String := String.mk (natDecAux n [])

/-- Decimal rendering of an integer, as the log stream prints it. -/
def intDec (i : Int) : String :=
  if i < 0 then "-" ++ natDec i.natAbs else natDec i.natAbs

/-- The value a writing `log` method returns: `-EIO` when the stream
has failed, 0 otherwise (`file.fail() ? -EIO : 0`). -/
def logStatus (streamFail : Bool) : Int := if streamFail then -EIOerr else 0

/-- `MetaCreate::log`. -/
def MetaCreate.log (sf : Bool) (dir : Int) (name : String)
    (fid numReplicas : Int) : Int × String :=
  (logStatus sf,
   "create/dir/" ++ intDec dir ++ "/name/" ++ name ++ "/id/" ++ intDec fid ++
     "/numReplicas/" ++ intDec numReplicas ++ "\n")

/-- `MetaMkdir::log`. -/
def MetaMkdir.log (sf : Bool) (dir : Int) (name : String) (fid : Int) :
    Int × String :=
  (logStatus sf,
   "mkdir/dir/" ++ intDec dir ++ "/name/" ++ name ++ "/id/" ++ intDec fid ++
     "\n")

/-- `MetaRemove::log`. -/
def MetaRemove.log (sf : Bool) (dir : Int) (name : String) : Int × String :=
  (logStatus sf, "remove/dir/" ++ intDec dir ++ "/name/" ++ name ++ "\n")

/-- `MetaRmdir::log`. -/
def MetaRmdir.log (sf : Bool) (dir : Int) (name : String) : Int × String :=
  (logStatus sf, "rmdir/dir/" ++ intDec dir ++ "/name/" ++ name ++ "\n")

/-- `MetaAllocate::log`. -/
def MetaAllocate.log (sf : Bool) (r : MetaAllocateReq) : Int × String :=
  (logStatus sf,
   "allocate/file/" ++ intDec r.fid ++ "/offset/" ++ intDec r.offset ++
     "/chunkId/" ++ intDec r.chunkId ++
     "/chunkVersion/" ++ intDec r.chunkVersion ++ "\n")

/-- `MetaTruncate::log`. -/
def MetaTruncate.log (sf : Bool) (r : MetaTruncateReq) : Int × String :=
  (logStatus sf,
   "truncate/file/" ++ intDec r.fid ++ "/offset/" ++ intDec r.offset ++ "\n")

/-- `MetaRename::log`. -/
def MetaRename.log (sf : Bool) (dir : Int) (oldname newname : String) :
    Int × String :=
  (logStatus sf,
   "rename/dir/" ++ intDec dir ++ "/old/" ++ oldname ++ "/new/" ++
     newname ++ "\n")

/-- `MetaChangeChunkVersionInc::log`. -/
def MetaChangeChunkVersionInc.log (sf : Bool) (cvi : Int) : Int × String :=
  (logStatus sf, "chunkVersionInc/" ++ intDec cvi ++ "\n")

/-- `MetaLookup::log` (nop). -/
def MetaLookup.log (_ : Bool) : Int × String := (0, "")

/-- `MetaLookupPath::log` (nop). -/
def MetaLookupPath.log (_ : Bool) : Int × String := (0, "")

/-- `MetaReaddir::log` (nop). -/
def MetaReaddir.log (_ : Bool) : Int × String := (0, "")

/-- `MetaGetalloc::log` (nop). -/
def MetaGetalloc.log (_ : Bool) : Int × String := (0, "")

/-- `MetaGetlayout::log` (nop). -/
def MetaGetlayout.log (_ : Bool) : Int × String := (0, "")

/-- `MetaLeaseAcquire::log` (nop). -/
def MetaLeaseAcquire.log (_ : Bool) : Int × String := (0, "")

/-- `MetaLeaseRenew::log` (nop). -/
def MetaLeaseRenew.log (_ : Bool) : Int × String := (0, "")

/-- `MetaLeaseCleanup::log` (nop). -/
def MetaLeaseCleanup.log (_ : Bool) : Int × String := (0, "")

/-- `MetaHello::log` (nop). -/
def MetaHello.log (_ : Bool) : Int × String := (0, "")

/-- `MetaBye::log` (nop). -/
def MetaBye.log (_ : Bool) : Int × String := (0, "")

/-- `MetaChunkAllocate::log` (nop). -/
def MetaChunkAllocate.log (_ : Bool) : Int × String := (0, "")

/-- `MetaChunkDelete::log` (nop). -/
def MetaChunkDelete.log (_ : Bool) : Int × String := (0, "")

/-- `MetaChunkTruncate::log` (nop). -/
def MetaChunkTruncate.log (_ : Bool) : Int × String := (0, "")

/-- `MetaChunkHeartbeat::log` (nop). -/
def MetaChunkHeartbeat.log (_ : Bool) : Int × String := (0, "")

/-- `MetaChunkStaleNotify::log` (nop). -/
def MetaChunkStaleNotify.log (_ : Bool) : Int × String := (0, "")

/-- `MetaChunkVersChange::log` (nop). -/
def MetaChunkVersChange.log (_ : Bool) : Int × String := (0, "")

/-- `MetaChunkReplicate::log` (nop). -/
def MetaChunkReplicate.log (_ : Bool) : Int × String := (0, "")

/-- `MetaChunkReplicationCheck::log` (nop). -/
def MetaChunkReplicationCheck.log (_ : Bool) : Int × String := (0, "")

/-- `MetaPing::log` (nop). -/
def MetaPing.log (_ : Bool) : Int × String := (0, "")

/-- `MetaStats::log` (nop). -/
def MetaStats.log (_ : Bool) : Int × String := (0, "")

/-- A well-formed log record with opcode prefix `pre`: exactly one
newline, placed at the end, and the line starts with `pre`. -/
def goodLogLine (pre line : String) : Prop :=
  line.data.count '\n' = 1 ∧
  line.data.getLast? = some '\n' ∧
  line.data.take pre.data.length = pre.data

end KFS

namespace KFS

/-- Claim C4: `start_CP` sets `running := true` and resets `mutations`
to 0 exactly when no checkpoint is running, `mutations ≠ 0` and no
`lock_running` is in force; when `nostart` holds it defers by setting
`startblocked`; when a checkpoint is already running or `mutations = 0`
it changes nothing; `unlock_running` triggers exactly the deferred
start; and a transition of `running` from false to true requires
`mutations ≠ 0` beforehand. -/
theorem start_CP_spec (s : CPState) :
    ((s.running = true ∨ s.mutations = 0) → start_CP s = s) ∧
    (s.running = false → s.mutations ≠ 0 → s.nostart = true →
      start_CP s = { s with startblocked := true }) ∧
    (s.running = false → s.mutations ≠ 0 → s.nostart = false →
      start_CP s = { s with running := true, mutations := 0 }) ∧
    ((start_CP s).running = true → s.running = false → s.mutations ≠ 0) ∧
    (s.startblocked = true →
      unlock_running s =
        start_CP { s with nostart := false, startblocked := false }) ∧
    (s.startblocked = false →
      unlock_running s = { s with nostart := false, startblocked := false }) := by
  refine ⟨?_, ?_, ?_, ?_, ?_, ?_⟩
  · intro h
    unfold start_CP
    rcases h with h | h
    · simp [h]
    · simp [h]
  · intro hr hm hn
    unfold start_CP
    simp [hr, hn, hm]
  · intro hr hm hn
    unfold start_CP
    simp [hr, hn, hm]
  · intro hrun hr hm
    have : start_CP s = s := by
      unfold start_CP
      simp [hm]
    rw [this] at hrun
    rw [hr] at hrun
    exact Bool.false_ne_true hrun
  · intro hb
    unfold unlock_running
    simp [hb]
  · intro hb
    unfold unlock_running
    simp [hb]

/-- Witness for `start_CP_spec` at concrete states: with
`running = false`, `mutations = 3`, `nostart = true` the start is
deferred to `startblocked`; with `nostart = false` it starts and resets
`mutations`; with `running = true` nothing changes. -/
theorem start_CP_spec_witness :
    start_CP ⟨false, 3, true, false, 0⟩ = ⟨false, 3, true, true, 0⟩ ∧
    start_CP ⟨false, 3, false, false, 0⟩ = ⟨true, 0, false, false, 0⟩ ∧
    start_CP ⟨true, 3, false, false, 0⟩ = ⟨true, 3, false, false, 0⟩ := by
  refine ⟨?_, ?_, ?_⟩
  · exact (start_CP_spec ⟨false, 3, true, false, 0⟩).2.1 rfl (by decide) rfl
  · exact (start_CP_spec ⟨false, 3, false, false, 0⟩).2.2.1 rfl (by decide) rfl
  · exact (start_CP_spec ⟨true, 3, false, false, 0⟩).1 (Or.inl rfl)

/-- Claim C2: for every request dequeued by `process_request` whose
opcode has a registered handler, that handler runs (the retired request
carries exactly the status and suspension the handler computed, with
the opcode unchanged); if and only if the request is not suspended
afterwards, its per-opcode counter is incremented and the request is
appended to the logger's pending list; a suspended request is neither
counted nor logged. -/
theorem process_request_spec
    (handlers : MetaOp → Option (DReq → Int × Bool))
    (counters : MetaOp → Option Nat) (pending : List DReq) (r : DReq)
    (h : DReq → Int × Bool) (hreg : handlers r.op = some h) :
    (process_request handlers counters pending r).2.2 =
      { r with status := (h r).1, suspended := (h r).2 } ∧
    ((h r).2 = false →
      (process_request handlers counters pending r).1 =
        updateCounter counters r.op ∧
      (∀ c, counters r.op = some c →
        (process_request handlers counters pending r).1 r.op = some (c + 1)) ∧
      (process_request handlers counters pending r).2.1 =
        pending ++ [{ r with status := (h r).1, suspended := (h r).2 }]) ∧
    ((h r).2 = true →
      (process_request handlers counters pending r).1 = counters ∧
      (process_request handlers counters pending r).2.1 = pending) := by
  unfold process_request
  rw [hreg]
  refine ⟨?_, ?_, ?_⟩
  · by_cases hs : (h r).2 = false
    · simp [hs]
    · simp at hs
      simp [hs]
  · intro hs
    simp only [hs]
    refine ⟨rfl, ?_, rfl⟩
    intro c hc
    simp [updateCounter, hc]
  · intro hs
    simp [hs]

/-- Witness for `process_request_spec`: a concrete handler map sending
`LOOKUP` to a handler returning status 0 unsuspended; the counter at
`LOOKUP` goes from 5 to 6 and the request is appended to the pending
list. -/
theorem process_request_spec_witness :
    (process_request
        (fun op => if op = MetaOp.LOOKUP then some (fun _ => (0, false)) else none)
        (fun op => if op = MetaOp.LOOKUP then some 5 else none)
        [] ⟨MetaOp.LOOKUP, -1, false⟩).1 MetaOp.LOOKUP = some 6 ∧
    (process_request
        (fun op => if op = MetaOp.LOOKUP then some (fun _ => (0, false)) else none)
        (fun op => if op = MetaOp.LOOKUP then some 5 else none)
        [] ⟨MetaOp.LOOKUP, -1, false⟩).2.1 = [⟨MetaOp.LOOKUP, 0, false⟩] := by
  have h := process_request_spec
    (fun op => if op = MetaOp.LOOKUP then some (fun _ => (0, false)) else none)
    (fun op => if op = MetaOp.LOOKUP then some 5 else none)
    [] ⟨MetaOp.LOOKUP, -1, false⟩ (fun _ => (0, false)) (by simp)
  refine ⟨?_, ?_⟩
  · exact (h.2.1 rfl).2.1 5 (by simp)
  · exact (h.2.1 rfl).2.2

/-- Drain lemma: whatever the accumulated status, `write_zombies` emits
exactly the records of the queued zombies, in queue order, and leaves
the queue empty. -/
theorem write_zombies_drain (zq : List MetaEnt) (st : Int) :
    (write_zombies zq st).2.1 = zq.map MetaEnt.out ∧
    (write_zombies zq st).2.2 = [] := by
  induction zq generalizing st with
  | nil => simp [write_zombies]
  | cons m rest ih =>
    simp only [write_zombies, List.map_cons]
    have h := ih (if st = 0 then m.cpStatus else st)
    exact ⟨by rw [h.1], h.2⟩

/-- Claim C5: zombies are flushed only after all leaves have been
written: when the checkpoint file opens and `write_leaves` succeeds,
the file contents are the header, then every leaf record, then the
zombie records; `write_zombies` dequeues every zombie, emits each
exactly once (its record appears at exactly its queue position) and
leaves the zombie queue empty. -/
theorem do_CP_write_spec (openFail : Bool) (i : CPFileInputs)
    (leaves : List LeafEnt) (zq : List MetaEnt) :
    (write_zombies zq 0).2.1 = zq.map MetaEnt.out ∧
    (write_zombies zq 0).2.2 = [] ∧
    (openFail = false → (write_leaves leaves).1 = 0 →
      do_CP_write openFail i leaves zq =
        ((write_zombies zq 0).1,
         cpHeader i ++ (write_leaves leaves).2 ++ zq.map MetaEnt.out,
         [])) := by
  refine ⟨(write_zombies_drain zq 0).1, (write_zombies_drain zq 0).2, ?_⟩
  intro hopen hleaves
  unfold do_CP_write
  rw [hopen]
  simp [hleaves, (write_zombies_drain zq 0).1, (write_zombies_drain zq 0).2]

/-- Does the action list contain no `CHUNK_VERS_CHANGE` notification? -/
def noVersChangeNotify (l : List AllocAction) : Bool :=
  l.all (fun a =>
    match a with
    | AllocAction.notifyChunkVersChange _ _ _ _ => false
    | _ => true)

/-- Counterexample to claim C1 as stated: a suspended `MetaAllocate`
resumed with a failure status (`layoutDone = true`, `status = -1`) on a
chunk whose tree version is not positive (first allocation) and with a
replica server attached emits no `CHUNK_VERS_CHANGE` notification at
all: the handler removes the chunk-to-server mapping instead.  The
status conversion and the incarnation bump do happen. -/
theorem handle_allocate_broadcast_counterexample :
    handle_allocate ⟨0, 0, 0, 0, 0, false, 0, 0, 0, 0⟩ 7
        ⟨10, 1, 0, 77, 3, 3, true, -1, true, [5], none⟩ =
      (⟨10, 1, 0, 77, 0, 3, true, -EALLOCFAILED, true, [5], none⟩, 8,
       [AllocAction.removeChunkToServerMapping 77,
        AllocAction.submitChangeChunkVersionInc 8]) ∧
    noVersChangeNotify
      (handle_allocate ⟨0, 0, 0, 0, 0, false, 0, 0, 0, 0⟩ 7
        ⟨10, 1, 0, 77, 3, 3, true, -1, true, [5], none⟩).2.2 = true := by
  constructor
  · decide
  · decide

/-- Claim C1 (amended): when a suspended `MetaAllocate` is resumed with
a failure status (`layoutDone = true`, nonzero status), the handler
converts the status to `-EALLOCFAILED`, re-suspends the request, bumps
`chunkVersionInc` by exactly one and submits the corresponding
`MetaChangeChunkVersionInc`; when the tree reports a positive chunk
version it broadcasts `CHUNK_VERS_CHANGE` with that version to every
replica server of the request, and otherwise (first allocation of the
chunk) it removes the chunk-to-server mapping instead. -/
theorem handle_allocate_fail_resume (ext : AllocCalls) (cvi : Int)
    (r : MetaAllocateReq) (hl : r.layoutDone = true) (hs : r.status ≠ 0) :
    (handle_allocate ext cvi r).1.status = -EALLOCFAILED ∧
    (handle_allocate ext cvi r).1.suspended = true ∧
    (handle_allocate ext cvi r).2.1 = cvi + 1 ∧
    (ext.getChunkVersion > 0 →
      (handle_allocate ext cvi r).2.2 =
        r.servers.map (fun s =>
          AllocAction.notifyChunkVersChange r.fid r.chunkId
            ext.getChunkVersion s)
        ++ [AllocAction.submitChangeChunkVersionInc (cvi + 1)]) ∧
    (¬ ext.getChunkVersion > 0 →
      (handle_allocate ext cvi r).2.2 =
        [AllocAction.removeChunkToServerMapping r.chunkId,
         AllocAction.submitChangeChunkVersionInc (cvi + 1)]) := by
  unfold handle_allocate ChangeIncarnationNumber
  rw [hl]
  by_cases hv : ext.getChunkVersion > 0
  · simp [hs, hv]
  · simp [hs, hv]

/-- Witness for `handle_allocate_fail_resume`: a failed resume on a
chunk with tree version 2 and replica servers 4 and 5 notifies both
servers of the version change and then submits the incarnation bump. -/
theorem handle_allocate_fail_resume_witness :
    (handle_allocate ⟨0, 0, 0, 0, 0, false, 0, 0, 2, 0⟩ 7
        ⟨10, 1, 0, 77, 3, 3, true, -1, true, [4, 5], none⟩).2.2 =
      [AllocAction.notifyChunkVersChange 1 77 2 4,
       AllocAction.notifyChunkVersChange 1 77 2 5,
       AllocAction.submitChangeChunkVersionInc 8] := by
  have h := (handle_allocate_fail_resume ⟨0, 0, 0, 0, 0, false, 0, 0, 2, 0⟩ 7
      ⟨10, 1, 0, 77, 3, 3, true, -1, true, [4, 5], none⟩ rfl
      (by decide)).2.2.2.1 (by decide)
  rw [h]
  decide

/-- Claim C3: a `MetaAllocate` on an already-allocated `(fid, offset)`
(`allocateChunkId` returns `-EEXIST`) whose `GetChunkWriteLease`
succeeds completes with status 0 keeping the existing chunk id; with
`is_new = false` the request is not suspended and the existing version
is kept, while with `is_new = true` the request is suspended awaiting
the version-change acks, carrying the bumped version. -/
theorem handle_allocate_exists_path (ext : AllocCalls) (cvi : Int)
    (r : MetaAllocateReq) (hl : r.layoutDone = false)
    (hs : r.suspended = false) (ha : ext.allocStatus = -EEXIST)
    (hlease : ext.leaseStatus = 0) :
    (ext.isNewLease = false →
      handle_allocate ext cvi r =
        ({ r with
            status := 0,
            chunkId := ext.allocChunkId,
            chunkVersion := ext.allocChunkVersion,
            numReplicas := ext.allocNumReplicas }, cvi, []) ∧
      (handle_allocate ext cvi r).1.suspended = false) ∧
    (ext.isNewLease = true →
      handle_allocate ext cvi r =
        ({ r with
            status := 0,
            chunkId := ext.allocChunkId,
            chunkVersion := ext.leaseChunkVersion,
            numReplicas := ext.allocNumReplicas,
            suspended := true }, cvi, [])) := by
  constructor
  · intro hnew
    have heq : handle_allocate ext cvi r =
        ({ r with
            status := 0,
            chunkId := ext.allocChunkId,
            chunkVersion := ext.allocChunkVersion,
            numReplicas := ext.allocNumReplicas }, cvi, []) := by
      unfold handle_allocate
      rw [hl]
      simp [ha, hlease, hnew, EEXIST]
    exact ⟨heq, by rw [heq, hs]⟩
  · intro hnew
    unfold handle_allocate
    rw [hl]
    simp [ha, hlease, hnew, EEXIST]

/-- Witness for `handle_allocate_exists_path`: with an existing chunk
(id 77, version 3) and a still-live write lease (`is_new = false`) the
request completes with status 0, unsuspended, keeping id 77 and
version 3. -/
theorem handle_allocate_exists_path_witness :
    handle_allocate ⟨-EEXIST, 77, 3, 3, 0, false, 9, 0, 0, 0⟩ 7
        ⟨10, 1, 0, 0, 0, 0, false, 0, false, [], none⟩ =
      (⟨10, 1, 0, 77, 3, 3, false, 0, false, [], none⟩, 7, []) := by
  have h := ((handle_allocate_exists_path
      ⟨-EEXIST, 77, 3, 3, 0, false, 9, 0, 0, 0⟩ 7
      ⟨10, 1, 0, 0, 0, 0, false, 0, false, [], none⟩
      rfl rfl rfl rfl).1 rfl).1
  rw [h]

/-- Claim C6: when `metatree.truncate` reports a positive status,
`handle_truncate` synthesises a `MetaAllocate` at the reported
extension offset for the same file, ties it to the truncate request,
suspends the truncate request and invokes `handle_allocate` on the
synthesised request; when the status is zero or negative the truncate
request keeps that status, stays unsuspended, and no allocation is
issued. -/
theorem handle_truncate_spec (truncStatus allocOffset : Int)
    (ext : AllocCalls) (cvi : Int) (r : MetaTruncateReq) :
    (truncStatus > 0 →
      handle_truncate truncStatus allocOffset ext cvi r =
        ({ r with status := truncStatus, suspended := true },
         some (handle_allocate ext cvi
           (newMetaAllocate r.opSeqno r.fid allocOffset (some r.opSeqno)))) ∧
      (newMetaAllocate r.opSeqno r.fid allocOffset
          (some r.opSeqno)).offset = allocOffset ∧
      (newMetaAllocate r.opSeqno r.fid allocOffset
          (some r.opSeqno)).fid = r.fid ∧
      (newMetaAllocate r.opSeqno r.fid allocOffset
          (some r.opSeqno)).reqLink = some r.opSeqno) ∧
    (truncStatus ≤ 0 →
      handle_truncate truncStatus allocOffset ext cvi r =
        ({ r with status := truncStatus }, none) ∧
      (r.suspended = false →
        (handle_truncate truncStatus allocOffset ext cvi r).1.suspended =
          false)) := by
  constructor
  · intro hpos
    refine ⟨?_, rfl, rfl, rfl⟩
    unfold handle_truncate
    simp [hpos]
  · intro hneg
    have hnp : ¬ truncStatus > 0 := not_lt.mpr hneg
    have heq : handle_truncate truncStatus allocOffset ext cvi r =
        ({ r with status := truncStatus }, none) := by
      unfold handle_truncate
      simp [hnp]
    exact ⟨heq, fun hsus => by rw [heq, hsus]⟩

/-- Witness for `handle_truncate_spec`: a truncate whose tree call
reports extension status 1 at offset 67108864 suspends and synthesises
the tied allocation; one reporting status 0 completes unsuspended. -/
theorem handle_truncate_spec_witness :
    handle_truncate 1 67108864 ⟨0, 88, 1, 3, 0, false, 0, 0, 0, 0⟩ 7
        ⟨20, 6, 67108874, 0, false⟩ =
      (⟨20, 6, 67108874, 1, true⟩,
       some (handle_allocate ⟨0, 88, 1, 3, 0, false, 0, 0, 0, 0⟩ 7
         (newMetaAllocate 20 6 67108864 (some 20)))) ∧
    handle_truncate 0 0 ⟨0, 88, 1, 3, 0, false, 0, 0, 0, 0⟩ 7
        ⟨20, 6, 5, 0, false⟩ =
      (⟨20, 6, 5, 0, false⟩, none) := by
  constructor
  · exact ((handle_truncate_spec 1 67108864 ⟨0, 88, 1, 3, 0, false, 0, 0, 0, 0⟩
      7 ⟨20, 6, 67108874, 0, false⟩).1 (by decide)).1
  · exact ((handle_truncate_spec 0 0 ⟨0, 88, 1, 3, 0, false, 0, 0, 0, 0⟩
      7 ⟨20, 6, 5, 0, false⟩).2 (by decide)).1

/-- Counterexample to claim C8 as stated: a CREATE request carrying
valid `Cseq`, `Parent File-handle` and `Filename` headers but no
`Num-replicas` header parses successfully with replication 1, not the
claimed default of 3 (the handler's `getValue` default is 1).
Moreover the `int16_t` narrowing of the field defeats the claimed
clamp and zero-fail behaviour on out-of-range values: `Num-replicas`
65537, though above 3, yields replication 1 rather than 3, and
`Num-replicas` 65536, though nonzero, fails the parse. -/
theorem parseHandlerCreate_default_counterexample :
    (parseHandlerCreate ⟨some 1, some 2, some "a", none⟩ =
      some ⟨1, 2, "a", 1⟩ ∧ (1 : Int) ≠ 3) ∧
    parseHandlerCreate ⟨some 1, some 2, some "a", some 65537⟩ =
      some ⟨1, 2, "a", 1⟩ ∧
    parseHandlerCreate ⟨some 1, some 2, some "a", some 65536⟩ = none := by
  refine ⟨⟨?_, ?_⟩, ?_, ?_⟩
  · decide
  · decide
  · decide
  · decide

/-- Claim C8 (amended): `parseHandlerCreate` first narrows the
`Num-replicas` value to `int16_t` (two's-complement wrap modulo 2^16);
the parse fails exactly on a narrowed value of 0, a narrowed value
above 3 is clamped to 3, and a CREATE request with no `Num-replicas`
header is given the default replication of 1. -/
theorem parseHandlerCreate_spec (p : CreateProps) :
    (∀ n, p.numReplicas = some n → toInt16 n = 0 →
      parseHandlerCreate p = none) ∧
    (∀ dir name, p.parentFileHandle = some dir → 0 ≤ dir →
      p.filename = some name →
      (p.numReplicas = none →
        parseHandlerCreate p = some ⟨p.cseq.getD (-1), dir, name, 1⟩) ∧
      (∀ n, p.numReplicas = some n → toInt16 n ≠ 0 →
        parseHandlerCreate p =
          some ⟨p.cseq.getD (-1), dir, name,
            if toInt16 n > NUM_REPLICAS_PER_FILE then NUM_REPLICAS_PER_FILE
            else toInt16 n⟩)) := by
  constructor
  · intro n hn h0
    unfold parseHandlerCreate
    rw [hn]
    by_cases hd : p.parentFileHandle.getD (-1) < 0
    · simp [hd]
    · cases hf : p.filename with
      | none => simp [hd, hf]
      | some name => simp [hd, hf, h0]
  · intro dir name hdir hdpos hname
    have hd : ¬ p.parentFileHandle.getD (-1) < 0 := by
      rw [hdir]
      simp only [Option.getD_some]
      omega
    constructor
    · intro h0
      unfold parseHandlerCreate
      rw [h0, hdir, hname]
      simp only [Option.getD_some, Option.getD_none]
      rw [if_neg (by omega)]
      norm_num [toInt16, NUM_REPLICAS_PER_FILE]
    · intro n hn hn0
      unfold parseHandlerCreate
      rw [hn, hdir, hname]
      simp only [Option.getD_some]
      rw [if_neg (by omega)]
      simp [hn0]

/-- Witness for `parseHandlerCreate_spec`: `Num-replicas` of 7 is
clamped to 3, a missing header yields replication 1, a value of 0
fails the parse, 65537 narrows to 1 and parses with replication 1, and
65536 narrows to 0 and fails the parse. -/
theorem parseHandlerCreate_spec_witness :
    parseHandlerCreate ⟨some 9, some 2, some "f", some 7⟩ =
      some ⟨9, 2, "f", 3⟩ ∧
    parseHandlerCreate ⟨some 9, some 2, some "f", none⟩ =
      some ⟨9, 2, "f", 1⟩ ∧
    parseHandlerCreate ⟨some 9, some 2, some "f", some 0⟩ = none ∧
    parseHandlerCreate ⟨some 9, some 2, some "f", some 65537⟩ =
      some ⟨9, 2, "f", 1⟩ ∧
    parseHandlerCreate ⟨some 9, some 2, some "f", some 65536⟩ = none := by
  refine ⟨?_, ?_, ?_, ?_, ?_⟩
  · have h := ((parseHandlerCreate_spec ⟨some 9, some 2, some "f", some 7⟩).2
      2 "f" rfl (by decide) rfl).2 7 rfl (by decide)
    rw [h]
    decide
  · have h := ((parseHandlerCreate_spec ⟨some 9, some 2, some "f", none⟩).2
      2 "f" rfl (by decide) rfl).1 rfl
    rw [h]
    decide
  · exact (parseHandlerCreate_spec ⟨some 9, some 2, some "f", some 0⟩).1
      0 rfl (by decide)
  · have h := ((parseHandlerCreate_spec
      ⟨some 9, some 2, some "f", some 65537⟩).2
      2 "f" rfl (by decide) rfl).2 65537 rfl (by decide)
    rw [h]
    decide
  · exact (parseHandlerCreate_spec ⟨some 9, some 2, some "f", some 65536⟩).1
      65536 rfl (by decide)

/-- Counterexample to claim C9 as stated: a LOOKUP with no `Cseq`
header parses successfully (the sequence defaults to -1), and a
LEASE_ACQUIRE with no `Chunk-handle` header parses successfully (the
chunk id defaults to -1); neither parse fails as the claim requires. -/
theorem parse_required_headers_counterexample :
    parseHandlerLookup ⟨none, some 2, some "a"⟩ = some ⟨-1, 2, "a"⟩ ∧
    parseHandlerLeaseAcquire ⟨some 1, none⟩ = some ⟨1, -1⟩ := by
  constructor
  · decide
  · decide

/-- Claim C9 (amended): `parseHandlerLookup` fails exactly when
`Parent File-handle` is absent or negative or `Filename` is absent;
`parseHandlerGetalloc` and `parseHandlerAllocate` fail exactly when
`File-handle` or `Chunk-offset` is absent or negative; a missing
`Cseq` never fails a parse (it defaults to -1); and
`parseHandlerLeaseAcquire` always succeeds, defaulting a missing
`Chunk-handle` to -1. -/
theorem parse_required_headers_spec (pl : LookupProps)
    (pg pa : FidOffsetProps) (pq : LeaseAcquireProps) :
    (parseHandlerLookup pl = none ↔
      pl.parentFileHandle.getD (-1) < 0 ∨ pl.filename = none) ∧
    (parseHandlerGetalloc pg = none ↔
      pg.fileHandle.getD (-1) < 0 ∨ pg.chunkOffset.getD (-1) < 0) ∧
    (parseHandlerAllocate pa = none ↔
      pa.fileHandle.getD (-1) < 0 ∨ pa.chunkOffset.getD (-1) < 0) ∧
    (parseHandlerLeaseAcquire pq).isSome = true := by
  refine ⟨?_, ?_, ?_, rfl⟩
  · unfold parseHandlerLookup
    by_cases hd : pl.parentFileHandle.getD (-1) < 0
    · simp [hd]
    · cases hf : pl.filename with
      | none => simp [hd, hf]
      | some name => simp [hd, hf]
  · unfold parseHandlerGetalloc
    by_cases hd : pg.fileHandle.getD (-1) < 0 ∨ pg.chunkOffset.getD (-1) < 0
    · simp [hd]
    · simp [hd]
  · unfold parseHandlerAllocate
    by_cases hd : pa.fileHandle.getD (-1) < 0 ∨ pa.chunkOffset.getD (-1) < 0
    · simp [hd]
    · simp [hd]

/-- Witness for `parse_required_headers_spec`: a GETALLOC with no
`Chunk-offset` fails, a LOOKUP with no `Parent File-handle` fails, and
a LEASE_ACQUIRE with neither header still parses. -/
theorem parse_required_headers_spec_witness :
    parseHandlerGetalloc ⟨some 1, some 2, none⟩ = none ∧
    parseHandlerLookup ⟨some 1, none, some "a"⟩ = none ∧
    (parseHandlerLeaseAcquire ⟨none, none⟩).isSome = true := by
  refine ⟨?_, ?_, ?_⟩
  · exact (parse_required_headers_spec ⟨some 1, none, some "a"⟩
      ⟨some 1, some 2, none⟩ ⟨none, none, none⟩ ⟨none, none⟩).2.1.mpr
      (Or.inr (by decide))
  · exact (parse_required_headers_spec ⟨some 1, none, some "a"⟩
      ⟨some 1, some 2, none⟩ ⟨none, none, none⟩ ⟨none, none⟩).1.mpr
      (Or.inl (by decide))
  · exact (parse_required_headers_spec ⟨some 1, none, some "a"⟩
      ⟨some 1, some 2, none⟩ ⟨none, none, none⟩ ⟨none, none⟩).2.2.2

/-- Root listings drop every entry named `"/"` from both the count and
the listed names. -/
theorem readdirGather_root (v : List MetaDentry) :
    readdirGather ROOTFID v =
      ((v.filter (fun d => d.name != "/")).length,
       concatNames (v.filter (fun d => d.name != "/"))) := by
  induction v with
  | nil => rfl
  | cons d rest ih =>
    by_cases h : d.name = "/"
    · simp [readdirGather, h, concatNames, ih, List.filter_cons]
    · simp [readdirGather, h, concatNames, ih, List.filter_cons]

/-- Non-root listings keep every dentry. -/
theorem readdirGather_nonroot (dir : Int) (h : dir ≠ ROOTFID)
    (v : List MetaDentry) :
    readdirGather dir v = (v.length, concatNames v) := by
  induction v with
  | nil => rfl
  | cons d rest ih =>
    simp [readdirGather, h, concatNames, ih]

/-- Claim C10: a successful READDIR on the root directory (fid 2)
omits the root's self-entry `"/"` from both the `Num-Entries` count
and the listed names, while a READDIR on any other directory lists
every dentry returned by the tree. -/
theorem readdir_response_spec (seq st dir : Int) (v : List MetaDentry)
    (hst : 0 ≤ st) :
    (dir = ROOTFID →
      MetaReaddir.response seq st dir v =
        "OK\r\n" ++ "Cseq: " ++ toString seq ++ "\r\n" ++
        "Status: " ++ toString st ++ "\r\n" ++
        readdirBody (v.filter (fun d => d.name != "/")).length
          (concatNames (v.filter (fun d => d.name != "/")))) ∧
    (dir ≠ ROOTFID →
      MetaReaddir.response seq st dir v =
        "OK\r\n" ++ "Cseq: " ++ toString seq ++ "\r\n" ++
        "Status: " ++ toString st ++ "\r\n" ++
        readdirBody v.length (concatNames v)) := by
  have hlt : ¬ st < 0 := not_lt.mpr hst
  constructor
  · intro hdir
    unfold MetaReaddir.response
    rw [hdir]
    simp only [hlt, if_false, readdirGather_root]
  · intro hdir
    unfold MetaReaddir.response
    simp only [hlt, if_false, readdirGather_nonroot dir hdir]

/-- Witness for `readdir_response_spec`: listing the root with entries
`"/"`, `"a"`, `"b"` reports two entries and the names `a`, `b`. -/
theorem readdir_response_spec_witness :
    MetaReaddir.response 1 0 2 [⟨"/"⟩, ⟨"a"⟩, ⟨"b"⟩] =
      "OK\r\nCseq: 1\r\nStatus: 0\r\nNum-Entries: 2\r\n" ++
      "Content-length: 4\r\n\r\na\nb\n" := by
  have h := (readdir_response_spec 1 0 2 [⟨"/"⟩, ⟨"a"⟩, ⟨"b"⟩]
      (by decide)).1 rfl
  rw [h]
  decide

/-- Witness for `do_CP_write_spec`: a two-leaf, two-zombie checkpoint
writes header, leaves, then zombies, and empties the zombie queue. -/
theorem do_CP_write_spec_witness :
    do_CP_write false ⟨1, "v", 3, 4, 5, "t", "log.1"⟩
        [⟨false, "leafA", 0⟩, ⟨false, "leafB", 0⟩]
        [⟨"zomA", 0⟩, ⟨"zomB", 0⟩] =
      (0, ["checkpoint/1", "version/v", "fid/3", "chunkId/4",
           "chunkVersionInc/5", "time/t", "log/log.1", "",
           "leafA", "leafB", "zomA", "zomB"], []) := by
  have h := (do_CP_write_spec false ⟨1, "v", 3, 4, 5, "t", "log.1"⟩
      [⟨false, "leafA", 0⟩, ⟨false, "leafB", 0⟩]
      [⟨"zomA", 0⟩, ⟨"zomB", 0⟩]).2.2 rfl (by decide)
  rw [h]
  decide

/-- A decimal digit character is not a newline. -/
theorem digitChar_ne_newline : ∀ m, m < 10 → Char.ofNat (48 + m) ≠ '\n' := by
  decide

/-- `natDecAux` only adds digit characters: no newline appears. -/
theorem natDecAux_no_newline (n : Nat) :
    ∀ acc : List Char, (∀ c ∈ acc, c ≠ '\n') →
      ∀ c ∈ natDecAux n acc, c ≠ '\n' := by
  induction n using Nat.strong_induction_on with
  | _ n ih =>
    intro acc hacc
    unfold natDecAux
    by_cases h : n < 10
    · simp only [h, if_true]
      intro c hc
      rcases List.mem_cons.mp hc with h1 | h1
      · subst h1
        exact digitChar_ne_newline (n % 10) (Nat.mod_lt _ (by norm_num))
      · exact hacc c h1
    · simp only [h, if_false]
      apply ih (n / 10) (Nat.div_lt_self (by omega) (by norm_num))
      intro c hc
      rcases List.mem_cons.mp hc with h1 | h1
      · subst h1
        exact digitChar_ne_newline (n % 10) (Nat.mod_lt _ (by norm_num))
      · exact hacc c h1

/-- The decimal rendering of an integer contains no newline. -/
theorem intDec_no_newline (i : Int) : '\n' ∉ (intDec i).data := by
  unfold intDec
  by_cases h : i < 0
  · simp only [h, if_true]
    rw [String.data_append]
    intro hmem
    rcases List.mem_append.mp hmem with h1 | h1
    · simp at h1
    · exact natDecAux_no_newline i.natAbs []
        (by intro c hc; simp at hc) '\n' h1 rfl
  · simp only [h, if_false]
    intro hmem
    exact natDecAux_no_newline i.natAbs []
      (by intro c hc; simp at hc) '\n' hmem rfl

/-- A newline absent from two lists is absent from their
concatenation. -/
theorem nl_not_mem_append {a b : List Char} (ha : '\n' ∉ a)
    (hb : '\n' ∉ b) : '\n' ∉ a ++ b := by
  intro h
  rcases List.mem_append.mp h with h | h
  · exact ha h
  · exact hb h

/-- A line of the shape `pre ++ mid ++ "\n"` with no newline in `pre`
or `mid` is a well-formed record with prefix `pre`. -/
theorem goodLogLine_mk (pre line : String) (mid : List Char)
    (hdata : line.data = pre.data ++ (mid ++ ['\n']))
    (hpre : '\n' ∉ pre.data) (hmid : '\n' ∉ mid) : goodLogLine pre line := by
  refine ⟨?_, ?_, ?_⟩
  · rw [hdata, List.count_append, List.count_append]
    rw [List.count_eq_zero.mpr hpre, List.count_eq_zero.mpr hmid]
    simp
  · rw [hdata, ← List.append_assoc]
    simp [List.getLast?_append]
  · rw [hdata, List.take_append_of_le_length (le_refl pre.data.length)]
    exact List.take_length pre.data

/-- The create record is a well-formed `create/`-prefixed line. -/
theorem MetaCreate_log_good (sf : Bool) (dir fid nr : Int) (name : String)
    (hname : '\n' ∉ name.data) :
    goodLogLine "create/" (MetaCreate.log sf dir name fid nr).2 := by
  apply goodLogLine_mk _ _
    (("dir/" : String).data ++ (intDec dir).data ++ ("/name/" : String).data ++
      name.data ++ ("/id/" : String).data ++ (intDec fid).data ++
      ("/numReplicas/" : String).data ++ (intDec nr).data)
  · simp only [MetaCreate.log, String.data_append, List.append_assoc,
      List.cons_append, List.nil_append]
  · decide
  · exact nl_not_mem_append (nl_not_mem_append (nl_not_mem_append
      (nl_not_mem_append (nl_not_mem_append (nl_not_mem_append
        (nl_not_mem_append (by decide) (intDec_no_newline dir))
        (by decide)) hname) (by decide)) (intDec_no_newline fid))
      (by decide)) (intDec_no_newline nr)

/-- The mkdir record is a well-formed `mkdir/`-prefixed line. -/
theorem MetaMkdir_log_good (sf : Bool) (dir fid : Int) (name : String)
    (hname : '\n' ∉ name.data) :
    goodLogLine "mkdir/" (MetaMkdir.log sf dir name fid).2 := by
  apply goodLogLine_mk _ _
    (("dir/" : String).data ++ (intDec dir).data ++ ("/name/" : String).data ++
      name.data ++ ("/id/" : String).data ++ (intDec fid).data)
  · simp only [MetaMkdir.log, String.data_append, List.append_assoc,
      List.cons_append, List.nil_append]
  · decide
  · exact nl_not_mem_append (nl_not_mem_append (nl_not_mem_append
      (nl_not_mem_append (nl_not_mem_append (by decide)
        (intDec_no_newline dir)) (by decide)) hname) (by decide))
      (intDec_no_newline fid)

/-- The remove record is a well-formed `remove/`-prefixed line. -/
theorem MetaRemove_log_good (sf : Bool) (dir : Int) (name : String)
    (hname : '\n' ∉ name.data) :
    goodLogLine "remove/" (MetaRemove.log sf dir name).2 := by
  apply goodLogLine_mk _ _
    (("dir/" : String).data ++ (intDec dir).data ++ ("/name/" : String).data ++
      name.data)
  · simp only [MetaRemove.log, String.data_append, List.append_assoc,
      List.cons_append, List.nil_append]
  · decide
  · exact nl_not_mem_append (nl_not_mem_append (nl_not_mem_append
      (by decide) (intDec_no_newline dir)) (by decide)) hname

/-- The rmdir record is a well-formed `rmdir/`-prefixed line. -/
theorem MetaRmdir_log_good (sf : Bool) (dir : Int) (name : String)
    (hname : '\n' ∉ name.data) :
    goodLogLine "rmdir/" (MetaRmdir.log sf dir name).2 := by
  apply goodLogLine_mk _ _
    (("dir/" : String).data ++ (intDec dir).data ++ ("/name/" : String).data ++
      name.data)
  · simp only [MetaRmdir.log, String.data_append, List.append_assoc,
      List.cons_append, List.nil_append]
  · decide
  · exact nl_not_mem_append (nl_not_mem_append (nl_not_mem_append
      (by decide) (intDec_no_newline dir)) (by decide)) hname

/-- The allocate record is a well-formed `allocate/`-prefixed line. -/
theorem MetaAllocate_log_good (sf : Bool) (r : MetaAllocateReq) :
    goodLogLine "allocate/" (MetaAllocate.log sf r).2 := by
  apply goodLogLine_mk _ _
    (("file/" : String).data ++ (intDec r.fid).data ++
      ("/offset/" : String).data ++ (intDec r.offset).data ++
      ("/chunkId/" : String).data ++ (intDec r.chunkId).data ++
      ("/chunkVersion/" : String).data ++ (intDec r.chunkVersion).data)
  · simp only [MetaAllocate.log, String.data_append, List.append_assoc,
      List.cons_append, List.nil_append]
  · decide
  · exact nl_not_mem_append (nl_not_mem_append (nl_not_mem_append
      (nl_not_mem_append (nl_not_mem_append (nl_not_mem_append
        (nl_not_mem_append (by decide) (intDec_no_newline r.fid))
        (by decide)) (intDec_no_newline r.offset)) (by decide))
      (intDec_no_newline r.chunkId)) (by decide))
      (intDec_no_newline r.chunkVersion)

/-- The truncate record is a well-formed `truncate/`-prefixed line. -/
theorem MetaTruncate_log_good (sf : Bool) (r : MetaTruncateReq) :
    goodLogLine "truncate/" (MetaTruncate.log sf r).2 := by
  apply goodLogLine_mk _ _
    (("file/" : String).data ++ (intDec r.fid).data ++
      ("/offset/" : String).data ++ (intDec r.offset).data)
  · simp only [MetaTruncate.log, String.data_append, List.append_assoc,
      List.cons_append, List.nil_append]
  · decide
  · exact nl_not_mem_append (nl_not_mem_append (nl_not_mem_append
      (by decide) (intDec_no_newline r.fid)) (by decide))
      (intDec_no_newline r.offset)

/-- The rename record is a well-formed `rename/`-prefixed line. -/
theorem MetaRename_log_good (sf : Bool) (dir : Int)
    (oldname newname : String) (ho : '\n' ∉ oldname.data)
    (hn : '\n' ∉ newname.data) :
    goodLogLine "rename/" (MetaRename.log sf dir oldname newname).2 := by
  apply goodLogLine_mk _ _
    (("dir/" : String).data ++ (intDec dir).data ++ ("/old/" : String).data ++
      oldname.data ++ ("/new/" : String).data ++ newname.data)
  · simp only [MetaRename.log, String.data_append, List.append_assoc,
      List.cons_append, List.nil_append]
  · decide
  · exact nl_not_mem_append (nl_not_mem_append (nl_not_mem_append
      (nl_not_mem_append (nl_not_mem_append (by decide)
        (intDec_no_newline dir)) (by decide)) ho) (by decide)) hn

/-- The chunk-version-increment record is a well-formed
`chunkVersionInc/`-prefixed line. -/
theorem MetaChangeChunkVersionInc_log_good (sf : Bool) (cvi : Int) :
    goodLogLine "chunkVersionInc/"
      (MetaChangeChunkVersionInc.log sf cvi).2 := by
  apply goodLogLine_mk _ _ (intDec cvi).data
  · simp only [MetaChangeChunkVersionInc.log, String.data_append,
      List.append_assoc, List.cons_append, List.nil_append]
  · decide
  · exact intDec_no_newline cvi

/-- Claim C7: every mutating operation's log method (create, mkdir,
remove, rmdir, allocate, truncate, rename, chunkVersionInc) writes
exactly one slash-delimited line prefixed by its opcode and terminated
by a newline and returns the stream status, which is `-EIO` exactly
when the stream has failed and 0 otherwise; every pure query
operation's log method (lookup, lookup_path, readdir, getalloc,
getlayout, the lease and monitoring ops and the chunkserver RPCs)
writes nothing and returns 0. -/
theorem log_records_spec (sf : Bool) (dir fid nr cvi : Int)
    (name oldname newname : String) (ar : MetaAllocateReq)
    (tr : MetaTruncateReq) (hname : '\n' ∉ name.data)
    (ho : '\n' ∉ oldname.data) (hn : '\n' ∉ newname.data) :
    (goodLogLine "create/" (MetaCreate.log sf dir name fid nr).2 ∧
      (MetaCreate.log sf dir name fid nr).1 = logStatus sf) ∧
    (goodLogLine "mkdir/" (MetaMkdir.log sf dir name fid).2 ∧
      (MetaMkdir.log sf dir name fid).1 = logStatus sf) ∧
    (goodLogLine "remove/" (MetaRemove.log sf dir name).2 ∧
      (MetaRemove.log sf dir name).1 = logStatus sf) ∧
    (goodLogLine "rmdir/" (MetaRmdir.log sf dir name).2 ∧
      (MetaRmdir.log sf dir name).1 = logStatus sf) ∧
    (goodLogLine "allocate/" (MetaAllocate.log sf ar).2 ∧
      (MetaAllocate.log sf ar).1 = logStatus sf) ∧
    (goodLogLine "truncate/" (MetaTruncate.log sf tr).2 ∧
      (MetaTruncate.log sf tr).1 = logStatus sf) ∧
    (goodLogLine "rename/" (MetaRename.log sf dir oldname newname).2 ∧
      (MetaRename.log sf dir oldname newname).1 = logStatus sf) ∧
    (goodLogLine "chunkVersionInc/"
        (MetaChangeChunkVersionInc.log sf cvi).2 ∧
      (MetaChangeChunkVersionInc.log sf cvi).1 = logStatus sf) ∧
    (sf = true → logStatus sf = -EIOerr) ∧
    (sf = false → logStatus sf = 0) ∧
    MetaLookup.log sf = (0, "") ∧
    MetaLookupPath.log sf = (0, "") ∧
    MetaReaddir.log sf = (0, "") ∧
    MetaGetalloc.log sf = (0, "") ∧
    MetaGetlayout.log sf = (0, "") ∧
    MetaLeaseAcquire.log sf = (0, "") ∧
    MetaLeaseRenew.log sf = (0, "") ∧
    MetaLeaseCleanup.log sf = (0, "") ∧
    MetaHello.log sf = (0, "") ∧
    MetaBye.log sf = (0, "") ∧
    MetaChunkAllocate.log sf = (0, "") ∧
    MetaChunkDelete.log sf = (0, "") ∧
    MetaChunkTruncate.log sf = (0, "") ∧
    MetaChunkHeartbeat.log sf = (0, "") ∧
    MetaChunkStaleNotify.log sf = (0, "") ∧
    MetaChunkVersChange.log sf = (0, "") ∧
    MetaChunkReplicate.log sf = (0, "") ∧
    MetaChunkReplicationCheck.log sf = (0, "") ∧
    MetaPing.log sf = (0, "") ∧
    MetaStats.log sf = (0, "") := by
  refine ⟨⟨MetaCreate_log_good sf dir fid nr name hname, rfl⟩,
    ⟨MetaMkdir_log_good sf dir fid name hname, rfl⟩,
    ⟨MetaRemove_log_good sf dir name hname, rfl⟩,
    ⟨MetaRmdir_log_good sf dir name hname, rfl⟩,
    ⟨MetaAllocate_log_good sf ar, rfl⟩,
    ⟨MetaTruncate_log_good sf tr, rfl⟩,
    ⟨MetaRename_log_good sf dir oldname newname ho hn, rfl⟩,
    ⟨MetaChangeChunkVersionInc_log_good sf cvi, rfl⟩,
    ?_, ?_, rfl, rfl, rfl, rfl, rfl, rfl, rfl, rfl, rfl, rfl, rfl, rfl,
    rfl, rfl, rfl, rfl, rfl, rfl, rfl, rfl⟩
  · intro h
    rw [h]
    rfl
  · intro h
    rw [h]
    rfl

/-- Witness for `log_records_spec`: the concrete create record on
directory 2, name `a`, fid 5, replication 3 is the expected single
line; its return value is 0 on a healthy stream and `-EIO` (-5) on a
failed one; a lookup logs nothing. -/
theorem log_records_spec_witness :
    goodLogLine "create/" (MetaCreate.log false 2 "a" 5 3).2 ∧
    (MetaCreate.log false 2 "a" 5 3).2 =
      "create/dir/2/name/a/id/5/numReplicas/3\n" ∧
    (MetaCreate.log false 2 "a" 5 3).1 = 0 ∧
    (MetaCreate.log true 2 "a" 5 3).1 = -5 ∧
    MetaLookup.log false = (0, "") := by
  have h := log_records_spec false 2 5 3 7 "a" "x" "y"
    ⟨10, 1, 0, 77, 3, 3, false, 0, false, [], none⟩ ⟨20, 6, 5, 0, false⟩
    (by decide) (by decide) (by decide)
  refine ⟨h.1.1, ?_, rfl, rfl, rfl⟩
  simp [MetaCreate.log, logStatus, intDec, natDec, natDecAux]

end KFS
